import Mathlib

/-!
Verification of the Basset Hound autofill-extension example repository.

This file gives a shallow embedding of the two programs the claims are
about:

* `src/examples/python-client-example.py` — the WebSocket client class
  `BassetHoundClient` (its `_send_command` method and the `on_message`
  callback installed by `connect`);
* `src/flask_test_app/app.py` — the two-route Flask demo (`/submit`
  and `/config`).

JSON / Python values are modelled by the inductive `JVal`; Python dicts
are modelled as association lists together with lookup / insert / pop
operations (the claims never observe iteration order, only the mapping).
Time and the socket are abstracted: a `_send_command` call receives an
`arrival : Option (List (String × JVal))` argument standing for the
response object (if any) that the background receive thread stores under
the freshly generated command id within the timeout window; `none` means
nothing arrived before the deadline.
-/

/-- JSON values as parsed by `json.loads` / produced by `jsonify`.
Numbers are modelled as integers (no claim involves fractional numbers);
objects are field lists with distinct keys (what a parsed Python dict is). -/
inductive JVal where
  | null : JVal
  | bool : Bool → JVal
  | num : Int → JVal
  | str : String → JVal
  | arr : List JVal → JVal
  | obj : List (String × JVal) → JVal

mutual

def decEqJVal : (a b : JVal) → Decidable (a = b)
  | .null, .null => isTrue rfl
  | .bool x, .bool y =>
      if h : x = y then isTrue (by rw [h]) else
        isFalse (by intro hh; injection hh; contradiction)
  | .num x, .num y =>
      if h : x = y then isTrue (by rw [h]) else
        isFalse (by intro hh; injection hh; contradiction)
  | .str x, .str y =>
      if h : x = y then isTrue (by rw [h]) else
        isFalse (by intro hh; injection hh; contradiction)
  | .arr xs, .arr ys =>
      match decEqJValList xs ys with
      | isTrue h => isTrue (by rw [h])
      | isFalse h => isFalse (by intro hh; injection hh; contradiction)
  | .obj xs, .obj ys =>
      match decEqJValFields xs ys with
      | isTrue h => isTrue (by rw [h])
      | isFalse h => isFalse (by intro hh; injection hh; contradiction)
  | .null, .bool _ => isFalse (by intro h; exact JVal.noConfusion h)
  | .null, .num _ => isFalse (by intro h; exact JVal.noConfusion h)
  | .null, .str _ => isFalse (by intro h; exact JVal.noConfusion h)
  | .null, .arr _ => isFalse (by intro h; exact JVal.noConfusion h)
  | .null, .obj _ => isFalse (by intro h; exact JVal.noConfusion h)
  | .bool _, .null => isFalse (by intro h; exact JVal.noConfusion h)
  | .bool _, .num _ => isFalse (by intro h; exact JVal.noConfusion h)
  | .bool _, .str _ => isFalse (by intro h; exact JVal.noConfusion h)
  | .bool _, .arr _ => isFalse (by intro h; exact JVal.noConfusion h)
  | .bool _, .obj _ => isFalse (by intro h; exact JVal.noConfusion h)
  | .num _, .null => isFalse (by intro h; exact JVal.noConfusion h)
  | .num _, .bool _ => isFalse (by intro h; exact JVal.noConfusion h)
  | .num _, .str _ => isFalse (by intro h; exact JVal.noConfusion h)
  | .num _, .arr _ => isFalse (by intro h; exact JVal.noConfusion h)
  | .num _, .obj _ => isFalse (by intro h; exact JVal.noConfusion h)
  | .str _, .null => isFalse (by intro h; exact JVal.noConfusion h)
  | .str _, .bool _ => isFalse (by intro h; exact JVal.noConfusion h)
  | .str _, .num _ => isFalse (by intro h; exact JVal.noConfusion h)
  | .str _, .arr _ => isFalse (by intro h; exact JVal.noConfusion h)
  | .str _, .obj _ => isFalse (by intro h; exact JVal.noConfusion h)
  | .arr _, .null => isFalse (by intro h; exact JVal.noConfusion h)
  | .arr _, .bool _ => isFalse (by intro h; exact JVal.noConfusion h)
  | .arr _, .num _ => isFalse (by intro h; exact JVal.noConfusion h)
  | .arr _, .str _ => isFalse (by intro h; exact JVal.noConfusion h)
  | .arr _, .obj _ => isFalse (by intro h; exact JVal.noConfusion h)
  | .obj _, .null => isFalse (by intro h; exact JVal.noConfusion h)
  | .obj _, .bool _ => isFalse (by intro h; exact JVal.noConfusion h)
  | .obj _, .num _ => isFalse (by intro h; exact JVal.noConfusion h)
  | .obj _, .str _ => isFalse (by intro h; exact JVal.noConfusion h)
  | .obj _, .arr _ => isFalse (by intro h; exact JVal.noConfusion h)

def decEqJValList : (a b : List JVal) → Decidable (a = b)
  | [], [] => isTrue rfl
  | [], _ :: _ => isFalse (by intro h; exact List.noConfusion h)
  | _ :: _, [] => isFalse (by intro h; exact List.noConfusion h)
  | x :: xs, y :: ys =>
      match decEqJVal x y with
      | isTrue h1 =>
          match decEqJValList xs ys with
          | isTrue h2 => isTrue (by rw [h1, h2])
          | isFalse h2 => isFalse (by intro hh; injection hh; contradiction)
      | isFalse h1 => isFalse (by intro hh; injection hh; contradiction)

def decEqJValFields : (a b : List (String × JVal)) → Decidable (a = b)
  | [], [] => isTrue rfl
  | [], _ :: _ => isFalse (by intro h; exact List.noConfusion h)
  | _ :: _, [] => isFalse (by intro h; exact List.noConfusion h)
  | (k, v) :: xs, (k2, v2) :: ys =>
      if hk : k = k2 then
        match decEqJVal v v2 with
        | isTrue h1 =>
            match decEqJValFields xs ys with
            | isTrue h2 => isTrue (by rw [hk, h1, h2])
            | isFalse h2 => isFalse (by
                intro hh; injection hh with hp ht; exact h2 ht)
        | isFalse h1 => isFalse (by
            intro hh; injection hh with hp ht
            exact h1 (congrArg Prod.snd hp))
      else
        isFalse (by
          intro hh; injection hh with hp ht
          exact hk (congrArg Prod.fst hp))

end

instance : DecidableEq JVal := decEqJVal

/-- `fields.get(key)` on a parsed JSON object: first binding wins
(parsed dicts have distinct keys). Models Python's `dict.get` returning
`None` (here `none`) when the key is absent. -/
def pyGet : List (String × JVal) → String → Option JVal
  | [], _ => none
  | (k, v) :: rest, key => if k = key then some v else pyGet rest key

/-- `fields.get(key, default)`. -/
def pyGetD (fields : List (String × JVal)) (key : String) (d : JVal) : JVal :=
  (pyGet fields key).getD d

/-- Python truthiness of a JSON value (`bool(v)`). -/
def vtruthy : JVal → Bool
  | .null => false
  | .bool b => b
  | .num n => n != 0
  | .str s => s != ""
  | .arr [] => false
  | .arr (_ :: _) => true
  | .obj [] => false
  | .obj (_ :: _) => true

/-- Python truthiness of a `dict.get` result: `None` (absent key) is falsy. -/
def truthyOpt : Option JVal → Bool
  | none => false
  | some v => vtruthy v

/-- Python's decimal rendering of a natural number, `str(n)`:
the base-10 digits of `n`, most significant first. -/
def pyIntStr (n : Nat) : String :=
  if n = 0 then "0"
  else ((Nat.digits 10 n).reverse.map Nat.digitChar).asString

/-- Python's decimal rendering of an integer, `str(i)`. -/
def pyIntStrZ (i : Int) : String :=
  if i < 0 then "-" ++ pyIntStr i.natAbs else pyIntStr i.toNat

/-- Python's `repr` of a JSON value (used by `str` on containers; only the
scalar cases are ever relied upon by the claims). -/
def pyRepr : JVal → String
  | .null => "None"
  | .bool true => "True"
  | .bool false => "False"
  | .num n => pyIntStrZ n
  | .str s => "\x27" ++ s ++ "\x27"
  | .arr xs => "[" ++ ", ".intercalate (xs.attach.map fun x => pyRepr x.1) ++ "]"
  | .obj fs =>
      "\x7b" ++
        ", ".intercalate
          (fs.attach.map fun p => "\x27" ++ p.1.1 ++ "\x27: " ++ pyRepr p.1.2) ++
      "\x7d"
decreasing_by
  · have := List.sizeOf_lt_of_mem x.2
    simp at *
    omega
  · obtain ⟨⟨k, v⟩, hmem⟩ := p
    have := List.sizeOf_lt_of_mem hmem
    simp at *
    omega

/-- Python's `str` of a JSON value as interpolated by an f-string. -/
def pyStr : JVal → String
  | .str s => s
  | v => pyRepr v

theorem digitChar_inj_lt10 (a b : Nat) (ha : a < 10) (hb : b < 10)
    (h : Nat.digitChar a = Nat.digitChar b) : a = b := by
  have key : ∀ x : Fin 10, ∀ y : Fin 10,
      Nat.digitChar x.val = Nat.digitChar y.val → x = y := by decide
  exact congrArg Fin.val (key ⟨a, ha⟩ ⟨b, hb⟩ h)

theorem map_digitChar_inj : ∀ (l1 l2 : List Nat),
    (∀ x ∈ l1, x < 10) → (∀ x ∈ l2, x < 10) →
    l1.map Nat.digitChar = l2.map Nat.digitChar → l1 = l2 := by
  intro l1
  induction l1 with
  | nil => intro l2 _ _ h; cases l2 <;> simp_all
  | cons a t ih =>
    intro l2 h1 h2 h
    cases l2 with
    | nil => simp_all
    | cons b t2 =>
      simp only [List.map_cons, List.cons.injEq] at h
      have hab : a = b :=
        digitChar_inj_lt10 a b (h1 a (by simp)) (h2 b (by simp)) h.1
      have ht : t = t2 :=
        ih t2 (fun x hx => h1 x (by simp [hx])) (fun x hx => h2 x (by simp [hx])) h.2
      simp [hab, ht]

/-- The digit-string rendering used by `pyIntStr` determines its input. -/
theorem digitRender_inj (a b : Nat)
    (hab : ((Nat.digits 10 a).reverse.map Nat.digitChar).asString =
      ((Nat.digits 10 b).reverse.map Nat.digitChar).asString) : a = b := by
  have hdata : (Nat.digits 10 a).reverse.map Nat.digitChar =
      (Nat.digits 10 b).reverse.map Nat.digitChar :=
    congrArg String.data hab
  have hrev : (Nat.digits 10 a).reverse = (Nat.digits 10 b).reverse := by
    apply map_digitChar_inj
    · intro x hx
      exact Nat.digits_lt_base (by norm_num) (List.mem_reverse.mp hx)
    · intro x hx
      exact Nat.digits_lt_base (by norm_num) (List.mem_reverse.mp hx)
    · exact hdata
  have hdig : Nat.digits 10 a = Nat.digits 10 b := List.reverse_injective hrev
  have := congrArg (Nat.ofDigits 10) hdig
  have ha := Nat.ofDigits_digits 10 a
  have hb := Nat.ofDigits_digits 10 b
  omega

theorem pyIntStr_inj (m n : Nat) (h : pyIntStr m = pyIntStr n) : m = n := by
  have nonzero_ne_zero_str : ∀ k : Nat, k ≠ 0 →
      ((Nat.digits 10 k).reverse.map Nat.digitChar).asString ≠ "0" := by
    intro k hk hcon
    have h01 : ("0" : String) = List.asString [Nat.digitChar 0] := by decide
    rw [h01] at hcon
    have hdata : (Nat.digits 10 k).reverse.map Nat.digitChar =
        [Nat.digitChar 0] := congrArg String.data hcon
    have hone : [Nat.digitChar 0] = List.map Nat.digitChar [0] := by simp
    rw [hone] at hdata
    have hrev : (Nat.digits 10 k).reverse = [0] := by
      apply map_digitChar_inj
      · intro x hx
        exact Nat.digits_lt_base (by norm_num) (List.mem_reverse.mp hx)
      · intro x hx
        simp at hx
        omega
      · exact hdata
    have hdig : Nat.digits 10 k = [0] := by
      have := congrArg List.reverse hrev
      simpa using this
    have := Nat.ofDigits_digits 10 k
    rw [hdig] at this
    simp [Nat.ofDigits] at this
    omega
  by_cases hm : m = 0 <;> by_cases hn : n = 0
  · omega
  · exfalso
    simp only [pyIntStr, hm, hn, if_true, if_false] at h
    exact nonzero_ne_zero_str n hn h.symm
  · exfalso
    simp only [pyIntStr, hm, hn, if_true, if_false] at h
    exact nonzero_ne_zero_str m hm h
  · simp only [pyIntStr, hm, hn, if_false] at h
    exact digitRender_inj m n h

/-!
## The WebSocket client (`src/examples/python-client-example.py`)

`BassetHoundClient` keeps three pieces of state the claims are about:
the `connected` flag, the `responses` dict (keyed by whatever value the
incoming message carried under `command_id` — the code uses it as a dict
key, so any hashable value can occur; the values stored are always the
whole parsed message dict), and the monotone `command_counter`.
-/

/-- The `self.responses` dict: keys are the (hashable) `command_id`
values of received messages, values are the parsed message objects
(`on_message` only ever stores dicts). -/
abbrev RespMap := List (JVal × List (String × JVal))

/-- Dict lookup (`m[k]` / `k in m`). -/
def dlookup : RespMap → JVal → Option (List (String × JVal))
  | [], _ => none
  | (k, v) :: rest, key => if k = key then some v else dlookup rest key

/-- Dict store `m[k] = v`: replaces any existing binding of `k`.
(The claims observe only the mapping, not iteration order.) -/
def dinsert (m : RespMap) (k : JVal) (v : List (String × JVal)) : RespMap :=
  (k, v) :: m.filter fun p => !(p.1 = k : Bool)

/-- Dict removal `m.pop(k)`: drops the binding of `k`. -/
def dpop (m : RespMap) (k : JVal) : RespMap :=
  m.filter fun p => !(p.1 = k : Bool)

/-- The mutable state of a `BassetHoundClient` instance
(`self.connected`, `self.responses`, `self.command_counter`;
`self.url` and `self.ws` play no role in the claims). -/
structure ClientState where
  connected : Bool
  responses : RespMap
  command_counter : Nat

/-- A Python dict key is hashable unless it is (built from) a list or dict. -/
def hashable : JVal → Bool
  | .arr _ => false
  | .obj _ => false
  | _ => true

/-- The `on_message` callback installed by `connect`:
parse the frame; if the parsed dict has a `command_id` key, store the whole
dict in `self.responses` under that value; otherwise, if its `type` equals
`"connected"`, set `self.connected = True`. A frame that fails to parse
(`parsed = none`, `json.JSONDecodeError`) is only logged. A parsed value
that is not a dict either has no `command_id`/`type` key to act on or makes
the handler raise (`TypeError`/`AttributeError`, e.g. indexing a string, or
storing under an unhashable key); the websocket-client library routes such
an exception to `on_error`, so in every one of those cases the client state
is left unchanged. -/
def on_message (st : ClientState) (parsed : Option JVal) : ClientState :=
  match parsed with
  | none => st
  | some (.obj fields) =>
      match pyGet fields "command_id" with
      | some cid =>
          if hashable cid then
            { st with responses := dinsert st.responses cid fields }
          else st
      | none =>
          if pyGet fields "type" = some (.str "connected") then
            { st with connected := true }
          else st
  | some _ => st

/-- Outcome of a `_send_command` call: normal return or a raised
`Exception` carrying a message string. -/
inductive SendOutcome where
  | ok : JVal → SendOutcome
  | exn : String → SendOutcome
deriving DecidableEq

/-- What a `_send_command` call produces: its outcome, the client state
after the call, and the list of frames it sent on the socket. -/
structure SendResult where
  outcome : SendOutcome
  state : ClientState
  sent : List JVal

/-- The command id `f"cmd-{self.command_counter}"` that the next
`_send_command` call on state `st` generates (after incrementing). -/
def nextCommandId (st : ClientState) : String :=
  "cmd-" ++ pyIntStr (st.command_counter + 1)

/-- `BassetHoundClient._send_command(command_type, params, timeout)`.
`arrival` is the response object (if any) that the background receive
thread stores under the generated command id before the deadline; the wait
loop is `while command_id not in self.responses`, so the branch is taken on
membership in the dict after any arrival, exactly as in the source. -/
def send_command (st : ClientState) (command_type : String) (params : JVal)
    (timeout : Nat) (arrival : Option (List (String × JVal))) : SendResult :=
  if st.connected = false then
    ⟨.exn "Not connected to server", st, []⟩
  else
    let counter := st.command_counter + 1
    let command_id := "cmd-" ++ pyIntStr counter
    let command : JVal := .obj
      [("command_id", .str command_id),
       ("type", .str command_type),
       ("params", params)]
    let responses1 : RespMap :=
      match arrival with
      | some fields => dinsert st.responses (.str command_id) fields
      | none => st.responses
    match dlookup responses1 (.str command_id) with
    | none =>
        ⟨.exn ("Command timeout after " ++ pyIntStr timeout ++ "s"),
         { st with command_counter := counter, responses := responses1 },
         [command]⟩
    | some response =>
        let responses2 := dpop responses1 (.str command_id)
        let st2 : ClientState :=
          { st with command_counter := counter, responses := responses2 }
        if truthyOpt (pyGet response "success") then
          ⟨.ok (pyGetD response "result" (.obj [])), st2, [command]⟩
        else
          ⟨.exn ("Command failed: " ++
              pyStr (pyGetD response "error" (.str "Unknown error"))),
           st2, [command]⟩

/-!
## The Flask demo (`src/flask_test_app/app.py`)
-/

/-- The `temp_configs` in-memory store (string domain → config). -/
abbrev ConfigStore := List (String × JVal)

/-- String-keyed dict lookup. -/
def slookup : ConfigStore → String → Option JVal
  | [], _ => none
  | (k, v) :: rest, key => if k = key then some v else slookup rest key

/-- String-keyed dict store (replaces any existing binding). -/
def sinsert (m : ConfigStore) (k : String) (v : JVal) : ConfigStore :=
  (k, v) :: m.filter fun p => !(p.1 = k : Bool)

/-- The form of a `POST /submit` request: `request.form.get` yields
`none` for an absent field. -/
structure SubmitForm where
  email : Option String
  phone : Option String
  target : Option String

/-- `request.form.get('target') or 'haveibeenpwned.com'`: Python `or`
falls through on `None` and on the empty string. -/
def targetDomain (target : Option String) : String :=
  match target with
  | none => "haveibeenpwned.com"
  | some s => if s = "" then "haveibeenpwned.com" else s

/-- A Python `None` form value is stored as is (serialized to JSON `null`). -/
def optStrVal : Option String → JVal
  | none => .null
  | some s => .str s

/-- The config object `/submit` stores: `phone or ''` maps both an absent
and an empty phone to the empty string. -/
def submitConfig (email phone : Option String) : JVal :=
  .obj [("fields", .obj
    [("email", .obj [("input#AccountCheck_Account", optStrVal email)]),
     ("phone", .obj [("input#PhoneField", .str ((phone.getD "")))])])]

/-- An HTTP response of the demo app: a redirect (302) to a location, or
a JSON body with a status code. -/
inductive FlaskResponse where
  | redirect : String → FlaskResponse
  | json : Nat → JVal → FlaskResponse
deriving DecidableEq

/-- The `/submit` handler: store the config under the target domain in
`temp_configs` and redirect to `https://{target_domain}/`. -/
def submit (store : ConfigStore) (form : SubmitForm) :
    ConfigStore × FlaskResponse :=
  let target_domain := targetDomain form.target
  (sinsert store target_domain (submitConfig form.email form.phone),
   .redirect ("https://" ++ target_domain ++ "/"))

/-- The filesystem as seen by `/config`: `files p = some cfg` means the
file at path `p` exists and `yaml.safe_load` parses it to `cfg`. -/
abbrev FileSystem := String → Option JVal

/-- How an f-string renders the `origin` query value into the path
`configs/{origin}.yaml` (`request.args.get` gives `None` when absent). -/
def originName : Option String → String
  | none => "None"
  | some s => s

/-- The `/config` handler: the in-memory store is consulted first
(`origin in temp_configs` is `False` for a `None` origin since all keys
are strings), then the file `configs/{origin}.yaml`, else a 404. -/
def get_config (store : ConfigStore) (files : FileSystem)
    (origin : Option String) : FlaskResponse :=
  let stored := match origin with
    | some o => slookup store o
    | none => none
  match stored with
  | some cfg => .json 200 cfg
  | none =>
      match files ("configs/" ++ originName origin ++ ".yaml") with
      | some cfg => .json 200 cfg
      | none => .json 404 (.obj [("error", .str "No config found")])

/-- Projection used in theorem statements: the value of field `k` of a
JSON object (none on other values). -/
def jget (v : JVal) (k : String) : Option JVal :=
  match v with
  | .obj fs => pyGet fs k
  | _ => none

/-- Path projection through nested JSON objects. -/
def jpath (v : JVal) : List String → Option JVal
  | [] => some v
  | k :: ks => match jget v k with
    | some v2 => jpath v2 ks
    | none => none

/-!
## Helper lemmas
-/

theorem string_append_left_cancel (a s t : String) (h : a ++ s = a ++ t) :
    s = t := by
  cases a with
  | mk la =>
    cases s with
    | mk ls =>
      cases t with
      | mk lt =>
        have hd : la ++ ls = la ++ lt := congrArg String.data h
        have := List.append_cancel_left hd
        rw [this]

theorem dlookup_dinsert_self (m : RespMap) (k : JVal)
    (v : List (String × JVal)) : dlookup (dinsert m k v) k = some v := by
  simp [dinsert, dlookup]

theorem dlookup_dpop_self (m : RespMap) (k : JVal) :
    dlookup (dpop m k) k = none := by
  induction m with
  | nil => rfl
  | cons p tl ih =>
    by_cases h : p.1 = k
    · simpa [dpop, List.filter, h] using ih
    · simpa [dpop, List.filter, h, dlookup] using ih

theorem slookup_sinsert_self (m : ConfigStore) (k : String) (v : JVal) :
    slookup (sinsert m k v) k = some v := by
  simp [sinsert, slookup]

theorem nextCommandId_counter_eq (s1 s2 : ClientState)
    (h : nextCommandId s1 = nextCommandId s2) :
    s1.command_counter = s2.command_counter := by
  unfold nextCommandId at h
  have h2 := string_append_left_cancel "cmd-" _ _ h
  have h3 := pyIntStr_inj _ _ h2
  omega

/-!
## Claims about `BassetHoundClient._send_command` / `on_message`
-/

/-- C1: on a connected client, when a response for the generated command id
arrives within the timeout, `_send_command` returns the response's `result`
value (the empty dict when the `result` key is absent) if the `success`
field is truthy, and raises `Exception(f"Command failed: {error}")` — whose
message contains the response's `error` string, or `Unknown error` when
that key is absent — if `success` is falsy or absent. -/
theorem C1_response_handling (st : ClientState) (t : String) (p : JVal)
    (timeout : Nat) (resp : List (String × JVal)) (hc : st.connected = true) :
    (truthyOpt (pyGet resp "success") = true →
      (send_command st t p timeout (some resp)).outcome =
        .ok (pyGetD resp "result" (.obj []))) ∧
    (truthyOpt (pyGet resp "success") = false →
      (∀ e, pyGet resp "error" = some (.str e) →
        (send_command st t p timeout (some resp)).outcome =
          .exn ("Command failed: " ++ e)) ∧
      (pyGet resp "error" = none →
        (send_command st t p timeout (some resp)).outcome =
          .exn ("Command failed: Unknown error"))) := by
  simp only [send_command, hc, Bool.true_eq_false, if_false,
    dlookup_dinsert_self]
  refine ⟨fun hs => by simp [hs], fun hs => ⟨fun e he => ?_, fun he => ?_⟩⟩
  · simp [hs, pyGetD, he, pyStr]
  · simp [hs, pyGetD, he, pyStr]

/-- C1 witness: a concrete successful call returns the `result` value. -/
theorem C1_witness :
    (send_command ⟨true, [], 0⟩ "navigate" (.obj [("url", .str "https://example.com")]) 30
        (some [("success", .bool true), ("result", .num 7)])).outcome =
      .ok (pyGetD [("success", .bool true), ("result", .num 7)] "result" (.obj [])) :=
  (C1_response_handling ⟨true, [], 0⟩ "navigate"
      (.obj [("url", .str "https://example.com")]) 30
      [("success", .bool true), ("result", .num 7)] rfl).1 rfl

/-- C2: on a connected client, when no response keyed by the generated
command id is in the responses dict by the deadline, `_send_command` raises
`Exception(f"Command timeout after {timeout}s")` — a message naming the
timeout — and has sent exactly one frame (no retry) and returns no value. -/
theorem C2_timeout_raises (st : ClientState) (t : String) (p : JVal)
    (timeout : Nat) (hc : st.connected = true)
    (hfresh : dlookup st.responses (.str (nextCommandId st)) = none) :
    (send_command st t p timeout none).outcome =
      .exn ("Command timeout after " ++ pyIntStr timeout ++ "s") ∧
    (send_command st t p timeout none).sent.length = 1 := by
  unfold nextCommandId at hfresh
  simp only [send_command, hc, Bool.true_eq_false, if_false, hfresh]
  simp

/-- C2 witness: a concrete connected call that sees no response times out. -/
theorem C2_witness :
    (send_command ⟨true, [], 0⟩ "click" (.obj [("selector", .str "h1")]) 30 none).outcome =
      .exn ("Command timeout after " ++ pyIntStr 30 ++ "s") ∧
    (send_command ⟨true, [], 0⟩ "click" (.obj [("selector", .str "h1")]) 30 none).sent.length = 1 :=
  C2_timeout_raises ⟨true, [], 0⟩ "click" (.obj [("selector", .str "h1")]) 30 rfl rfl

/-- C3: after any `_send_command` call on a connected client — in
particular any call that finds a response for its command id, whether its
`success` field is truthy or falsy — the generated command id is no longer
a key of `self.responses`: the entry is popped before the call returns or
raises. -/
theorem C3_entry_cleared (st : ClientState) (t : String) (p : JVal)
    (timeout : Nat) (arrival : Option (List (String × JVal)))
    (hc : st.connected = true) :
    dlookup (send_command st t p timeout arrival).state.responses
      (.str (nextCommandId st)) = none := by
  simp only [send_command, hc, Bool.true_eq_false, if_false, nextCommandId]
  cases arrival with
  | none =>
    cases hl : dlookup st.responses (.str ("cmd-" ++ pyIntStr (st.command_counter + 1))) with
    | none => simp [hl]
    | some r =>
      simp only [hl]
      split <;> simp [dlookup_dpop_self]
  | some fields =>
    simp only [dlookup_dinsert_self]
    split <;> simp [dlookup_dpop_self]

/-- C3 witness: a concrete call pops its response entry. -/
theorem C3_witness :
    dlookup (send_command ⟨true, [], 0⟩ "click" (.obj []) 30
        (some [("success", .bool false)])).state.responses
      (.str (nextCommandId ⟨true, [], 0⟩)) = none :=
  C3_entry_cleared ⟨true, [], 0⟩ "click" (.obj []) 30
    (some [("success", .bool false)]) rfl

/-- C4 counterexample: a `_send_command` call on a client that is not
connected raises `Exception("Not connected to server")` before building or
sending any frame, so this call sends zero frames, not exactly one. -/
theorem C4_counterexample :
    (send_command ⟨false, [], 0⟩ "navigate"
        (.obj [("url", .str "https://example.com")]) 30 none).sent = [] ∧
    ([] : List JVal).length ≠ 1 :=
  ⟨rfl, by decide⟩

/-- C4 (amended): for every `_send_command` call on a connected client with
command type `t` and parameters `p`, exactly one JSON text frame is sent,
whose object has exactly the three keys `command_id`, `type`, `params`,
with `type` equal to `t` and `params` equal to `p`. -/
theorem C4_single_frame (st : ClientState) (t : String) (p : JVal)
    (timeout : Nat) (arrival : Option (List (String × JVal)))
    (hc : st.connected = true) :
    (send_command st t p timeout arrival).sent =
      [.obj [("command_id", .str (nextCommandId st)),
             ("type", .str t), ("params", p)]] := by
  simp only [send_command, hc, Bool.true_eq_false, if_false, nextCommandId]
  cases arrival with
  | none =>
    cases hl : dlookup st.responses (.str ("cmd-" ++ pyIntStr (st.command_counter + 1))) with
    | none => simp [hl]
    | some r =>
      simp only [hl]
      split <;> rfl
  | some fields =>
    simp only [dlookup_dinsert_self]
    split <;> rfl

/-- C4 witness: a concrete connected call sends exactly its one frame. -/
theorem C4_witness :
    (send_command ⟨true, [], 0⟩ "fill_form" (.obj [("submit", .bool false)]) 30 none).sent =
      [.obj [("command_id", .str (nextCommandId ⟨true, [], 0⟩)),
             ("type", .str "fill_form"),
             ("params", .obj [("submit", .bool false)])]] :=
  C4_single_frame ⟨true, [], 0⟩ "fill_form" (.obj [("submit", .bool false)]) 30 none rfl

/-- C5 counterexample: a JSON message whose `command_id` value is a list is
parsed, its `command_id` key is present, yet nothing is stored: the dict
assignment `self.responses[data['command_id']] = data` raises `TypeError`
(unhashable key), the claim's required store does not happen, and the
state is left unchanged. -/
theorem C5_counterexample :
    pyGet [("command_id", JVal.arr [])] "command_id" = some (.arr []) ∧
    (on_message ⟨false, [], 0⟩
        (some (.obj [("command_id", .arr [])]))).responses = [] :=
  ⟨rfl, rfl⟩

/-- C5 (amended): for every incoming message that parses as JSON, the
`on_message` handler stores the parsed object into the responses dict
under its `command_id` key whenever that key is present with a hashable
value (anything but a JSON array or object; an unhashable value makes the
store raise and changes nothing); only when `command_id` is absent and the
object's `type` equals `"connected"` does it set the connected flag to
`True`; a parsed value that is not an object, like a message that fails to
parse as JSON, leaves both the responses dict and the connected flag
unchanged. -/
theorem C5_on_message_cases (st : ClientState) (parsed : Option JVal) :
    (parsed = none → on_message st parsed = st) ∧
    (∀ fields cid, parsed = some (.obj fields) →
        pyGet fields "command_id" = some cid → hashable cid = true →
        on_message st parsed =
          { st with responses := dinsert st.responses cid fields }) ∧
    (∀ fields cid, parsed = some (.obj fields) →
        pyGet fields "command_id" = some cid → hashable cid = false →
        on_message st parsed = st) ∧
    (∀ fields, parsed = some (.obj fields) →
        pyGet fields "command_id" = none →
        pyGet fields "type" = some (.str "connected") →
        on_message st parsed = { st with connected := true }) ∧
    (∀ fields, parsed = some (.obj fields) →
        pyGet fields "command_id" = none →
        pyGet fields "type" ≠ some (.str "connected") →
        on_message st parsed = st) ∧
    (∀ v, parsed = some v → (∀ fields, v ≠ .obj fields) →
        on_message st parsed = st) := by
  refine ⟨fun h => by rw [h]; rfl, ?_, ?_, ?_, ?_, ?_⟩
  · intro fields cid hp hcid hh
    rw [hp]
    simp [on_message, hcid, hh]
  · intro fields cid hp hcid hh
    rw [hp]
    simp [on_message, hcid, hh]
  · intro fields hp hcid hty
    rw [hp]
    simp [on_message, hcid, hty]
  · intro fields hp hcid hty
    rw [hp]
    simp [on_message, hcid, hty]
  · intro v hp hv
    rw [hp]
    cases v with
    | obj fields => exact absurd rfl (hv fields)
    | null => rfl
    | bool b => rfl
    | num n => rfl
    | str s => rfl
    | arr xs => rfl

/-- C5 witness: a concrete response message is stored under its id, and a
concrete `connected` frame sets the flag. -/
theorem C5_witness :
    on_message ⟨false, [], 0⟩
        (some (.obj [("command_id", .str "cmd-1"), ("success", .bool true)])) =
      { ClientState.mk false [] 0 with
          responses := dinsert [] (.str "cmd-1")
            [("command_id", .str "cmd-1"), ("success", .bool true)] } ∧
    on_message ⟨false, [], 0⟩ (some (.obj [("type", .str "connected")])) =
      { ClientState.mk false [] 0 with connected := true } :=
  ⟨(C5_on_message_cases ⟨false, [], 0⟩
        (some (.obj [("command_id", .str "cmd-1"), ("success", .bool true)]))).2.1
      [("command_id", .str "cmd-1"), ("success", .bool true)] (.str "cmd-1")
      rfl rfl rfl,
   (C5_on_message_cases ⟨false, [], 0⟩
        (some (.obj [("type", .str "connected")]))).2.2.2.1
      [("type", .str "connected")] rfl rfl rfl⟩

/-- C6 counterexample: a `_send_command` call on a client that is not
connected raises before generating an id, so it does not increment
`command_counter` (the claim asserts every call increments it). -/
theorem C6_counterexample :
    (send_command ⟨false, [], 5⟩ "navigate" (.obj []) 30 none).state.command_counter = 5 ∧
    (5 : Nat) ≠ 5 + 1 :=
  ⟨rfl, by decide⟩

/-- C6 (amended): on a connected client every `_send_command` call
increments `command_counter` and uses the fresh identifier
`f"cmd-{counter}"` in its single sent frame; states with distinct counters
generate distinct command ids (so any two distinct sending calls on the
same instance use distinct ids); and the value returned by a successful
call is taken from the response stored under that call's own command id. -/
theorem C6_command_correlation (st : ClientState) (t : String) (p : JVal)
    (timeout : Nat) (arrival : Option (List (String × JVal)))
    (hc : st.connected = true) :
    (send_command st t p timeout arrival).state.command_counter =
      st.command_counter + 1 ∧
    (∀ f ∈ (send_command st t p timeout arrival).sent,
        jget f "command_id" = some (.str (nextCommandId st))) ∧
    (∀ st2 : ClientState, st2.command_counter ≠ st.command_counter →
        nextCommandId st2 ≠ nextCommandId st) ∧
    (∀ resp, arrival = some resp →
        dlookup (dinsert st.responses (.str (nextCommandId st)) resp)
            (.str (nextCommandId st)) = some resp ∧
        (truthyOpt (pyGet resp "success") = true →
          (send_command st t p timeout arrival).outcome =
            .ok (pyGetD resp "result" (.obj [])))) := by
  refine ⟨?_, ?_, ?_, ?_⟩
  · simp only [send_command, hc, Bool.true_eq_false, if_false]
    cases arrival with
    | none =>
      cases hl : dlookup st.responses (.str ("cmd-" ++ pyIntStr (st.command_counter + 1))) with
      | none => simp [hl]
      | some r =>
        simp only [hl]
        split <;> rfl
    | some fields =>
      simp only [dlookup_dinsert_self]
      split <;> rfl
  · intro f hf
    rw [C4_single_frame st t p timeout arrival hc] at hf
    simp only [List.mem_singleton] at hf
    rw [hf]
    rfl
  · intro st2 hne heq
    exact hne (nextCommandId_counter_eq st2 st heq)
  · intro resp ha
    refine ⟨dlookup_dinsert_self _ _ _, fun hs => ?_⟩
    rw [ha]
    exact (C1_response_handling st t p timeout resp hc).1 hs

/-- C6 witness: a concrete call increments the counter, tags its frame
with the fresh id, distinct counters give distinct ids, and the returned
value comes from the response stored under the call's id. -/
theorem C6_witness :
    (send_command ⟨true, [], 0⟩ "navigate" (.obj []) 30
        (some [("success", .bool true), ("result", .str "ok")])).state.command_counter = 0 + 1 ∧
    nextCommandId ⟨true, [], 7⟩ ≠ nextCommandId ⟨true, [], 0⟩ ∧
    (send_command ⟨true, [], 0⟩ "navigate" (.obj []) 30
        (some [("success", .bool true), ("result", .str "ok")])).outcome =
      .ok (pyGetD [("success", .bool true), ("result", .str "ok")] "result" (.obj [])) := by
  have h := C6_command_correlation ⟨true, [], 0⟩ "navigate" (.obj []) 30
    (some [("success", .bool true), ("result", .str "ok")]) rfl
  exact ⟨h.1, h.2.2.1 ⟨true, [], 7⟩ (by decide),
    (h.2.2.2 [("success", .bool true), ("result", .str "ok")] rfl).2 rfl⟩

/-!
## Claims about the Flask demo (`/submit`, `/config`)
-/

/-- C7: a `POST /submit` with a non-empty caller-supplied `target` form
value stores a config in `temp_configs` keyed by that value — embedding
the submitted `email` under `fields.email.input#AccountCheck_Account` and
the submitted `phone` under `fields.phone.input#PhoneField` — and responds
with a redirect to `https://<that domain>/`, whatever the domain is. -/
theorem C7_submit_stores_and_redirects (store : ConfigStore)
    (form : SubmitForm) (t : String) (ht : form.target = some t)
    (hne : t ≠ "") :
    (submit store form).2 = .redirect ("https://" ++ t ++ "/") ∧
    ∃ cfg, slookup (submit store form).1 t = some cfg ∧
      jpath cfg ["fields", "email", "input#AccountCheck_Account"] =
        some (optStrVal form.email) ∧
      jpath cfg ["fields", "phone", "input#PhoneField"] =
        some (.str (form.phone.getD "")) := by
  have hdom : targetDomain form.target = t := by
    rw [ht]; simp [targetDomain, hne]
  refine ⟨?_, submitConfig form.email form.phone, ?_, ?_, ?_⟩
  · simp [submit, hdom]
  · simp [submit, hdom, slookup_sinsert_self]
  · simp [submitConfig, jpath, jget, pyGet]
  · simp [submitConfig, jpath, jget, pyGet]

/-- C7 witness: a concrete submission with an attacker-chosen target. -/
theorem C7_witness :
    (submit [] ⟨some "a@b.example", some "555", some "evil.example"⟩).2 =
      .redirect ("https://" ++ "evil.example" ++ "/") ∧
    ∃ cfg, slookup (submit [] ⟨some "a@b.example", some "555", some "evil.example"⟩).1
        "evil.example" = some cfg ∧
      jpath cfg ["fields", "email", "input#AccountCheck_Account"] =
        some (optStrVal (some "a@b.example")) ∧
      jpath cfg ["fields", "phone", "input#PhoneField"] =
        some (.str ((some "555" : Option String).getD "")) :=
  C7_submit_stores_and_redirects [] ⟨some "a@b.example", some "555", some "evil.example"⟩
    "evil.example" rfl (by decide)

/-- C8: `GET /config?origin=o` returns HTTP 200 with a JSON body when `o`
is a key of `temp_configs` (the stored config) or when the file
`configs/o.yaml` exists (its parsed content), and otherwise returns
HTTP 404 with body `{"error": "No config found"}`. -/
theorem C8_get_config_cases (store : ConfigStore) (files : FileSystem)
    (o : String) :
    (∀ cfg, slookup store o = some cfg →
        get_config store files (some o) = .json 200 cfg) ∧
    (∀ cfg, slookup store o = none →
        files ("configs/" ++ o ++ ".yaml") = some cfg →
        get_config store files (some o) = .json 200 cfg) ∧
    (slookup store o = none →
        files ("configs/" ++ o ++ ".yaml") = none →
        get_config store files (some o) =
          .json 404 (.obj [("error", .str "No config found")])) := by
  refine ⟨fun cfg h => ?_, fun cfg h1 h2 => ?_, fun h1 h2 => ?_⟩
  · simp [get_config, h]
  · simp [get_config, h1, originName, h2]
  · simp [get_config, h1, originName, h2]

/-- C8 witness: all three cases at concrete stores and filesystems. -/
theorem C8_witness :
    get_config [("a.example", .num 1)] (fun _ => none) (some "a.example") =
      .json 200 (.num 1) ∧
    get_config [] (fun p => if p = "configs/b.example.yaml" then some (.num 2) else none)
        (some "b.example") = .json 200 (.num 2) ∧
    get_config [] (fun _ => none) (some "c.example") =
      .json 404 (.obj [("error", .str "No config found")]) :=
  ⟨(C8_get_config_cases [("a.example", .num 1)] (fun _ => none) "a.example").1
      (.num 1) rfl,
   (C8_get_config_cases [] (fun p => if p = "configs/b.example.yaml" then some (.num 2) else none)
      "b.example").2.1 (.num 2) rfl (by simp),
   (C8_get_config_cases [] (fun _ => none) "c.example").2.2 rfl rfl⟩

/-- C9: a `POST /submit` whose `target` field is absent or empty stores
the config under the default key `haveibeenpwned.com` and redirects to
`https://haveibeenpwned.com/`; an absent `phone` field is stored as the
empty string (not as null). -/
theorem C9_submit_defaults (store : ConfigStore) (form : SubmitForm)
    (ht : form.target = none ∨ form.target = some "") :
    (submit store form).2 = .redirect "https://haveibeenpwned.com/" ∧
    ∃ cfg, slookup (submit store form).1 "haveibeenpwned.com" = some cfg ∧
      (form.phone = none →
        jpath cfg ["fields", "phone", "input#PhoneField"] = some (.str "")) := by
  have hdom : targetDomain form.target = "haveibeenpwned.com" := by
    rcases ht with h | h <;> rw [h] <;> simp [targetDomain]
  refine ⟨?_, submitConfig form.email form.phone, ?_, fun hp => ?_⟩
  · simp only [submit]
    rw [hdom]
    decide
  · simp only [submit]
    rw [hdom]
    exact slookup_sinsert_self _ _ _
  · simp [submitConfig, hp, jpath, jget, pyGet]

/-- C9 witness: a concrete submission with no target and no phone. -/
theorem C9_witness :
    (submit [] ⟨some "a@b.example", none, none⟩).2 =
      .redirect "https://haveibeenpwned.com/" ∧
    ∃ cfg, slookup (submit [] ⟨some "a@b.example", none, none⟩).1
        "haveibeenpwned.com" = some cfg ∧
      ((none : Option String) = none →
        jpath cfg ["fields", "phone", "input#PhoneField"] = some (.str "")) :=
  C9_submit_defaults [] ⟨some "a@b.example", none, none⟩ (Or.inl rfl)

/-- C10: when an origin is both a key of `temp_configs` and the name of an
existing `configs/<origin>.yaml` file, `GET /config` returns the in-memory
config: the in-memory store is consulted first and shadows the file. -/
theorem C10_memory_shadows_file (store : ConfigStore) (files : FileSystem)
    (o : String) (cfg fcfg : JVal) (hmem : slookup store o = some cfg)
    (hfile : files ("configs/" ++ o ++ ".yaml") = some fcfg) :
    get_config store files (some o) = .json 200 cfg := by
  simp [get_config, hmem]

/-- C10 witness: with both sources present, the in-memory config wins. -/
theorem C10_witness :
    get_config [("x.example", .num 3)]
        (fun p => if p = "configs/x.example.yaml" then some (.num 9) else none)
        (some "x.example") = .json 200 (.num 3) :=
  C10_memory_shadows_file [("x.example", .num 3)]
    (fun p => if p = "configs/x.example.yaml" then some (.num 9) else none)
    "x.example" (.num 3) (.num 9) rfl (by simp)
